import Mathlib

/-!
Verification of the autoplaystuff stream controller (src/__main__.py) against
its natural-language specification.  The Python source is shallowly embedded:
the vlc engine is modelled through its play/stop/state-query interface (the
spec's playback-engine collaborator contract), stateful code is explicit state
passing, exceptions become Except, and sys.exit becomes an Except.error result.
-/

namespace Autoplay

/-- Player states exposed by the vlc engine's get_state query (the libvlc
State enumeration used by the source at lines 53 and 61). -/
inductive VLCState
  | nothingSpecial
  | opening
  | buffering
  | playing
  | paused
  | stopped
  | ended
  | error
deriving DecidableEq, Repr

/-- Observable playback state together with counters of how many times the
engine's play and stop operations have been invoked. -/
structure PlayerState where
  engine : VLCState
  playCount : Nat
  stopCount : Nat
deriving DecidableEq, Repr

/-- The engine's play operation: the session transitions to Playing
(playback-engine collaborator contract). -/
def enginePlay (s : PlayerState) : PlayerState :=
  { s with engine := VLCState.playing, playCount := s.playCount + 1 }

/-- The engine's stop operation: the session leaves Playing. -/
def engineStop (s : PlayerState) : PlayerState :=
  { s with engine := VLCState.stopped, stopCount := s.stopCount + 1 }

/-- StreamPlayer.start (lines 51-57), non-throwing path: invoke the engine's
play unless get_state already reports Playing. -/
def StreamPlayer.start (s : PlayerState) : PlayerState :=
  if s.engine ≠ VLCState.playing then enginePlay s else s

/-- StreamPlayer.stop (lines 59-65), non-throwing path: invoke the engine's
stop only when get_state reports Playing. -/
def StreamPlayer.stop (s : PlayerState) : PlayerState :=
  if s.engine = VLCState.playing then engineStop s else s

/-- StreamPlayer.loop (lines 67-69): poll get_state until it reports Ended.
Successive queries are a sequence q of engine states; given that some poll
reports Ended, the loop returns at the first such poll index. -/
def loopReturn (q : Nat → VLCState) (h : ∃ n, q n = VLCState.ended) : Nat :=
  Nat.find h

/-- Sample poll sequence: the engine reports Playing twice, then Ended. -/
def pollTrace : Nat → VLCState :=
  fun n => if n < 2 then VLCState.playing else VLCState.ended

/-- Effects an iteration of the while loop in StreamPlayer.loop can perform. -/
inductive LoopEffect
  | queryState
  | sleepMs (ms : Nat)
deriving DecidableEq, Repr

/-- The effects actually performed by one iteration of the while loop in
StreamPlayer.loop (lines 68-69): the condition queries the state and the body
is just continue, so each iteration is exactly one state query. -/
def loopIterationEffects : List LoopEffect := [LoopEffect.queryState]

def LoopEffect.isSleep : LoopEffect → Bool
  | LoopEffect.sleepMs _ => true
  | LoopEffect.queryState => false

/-- A datetime.time value (hour/minute/second), as built by to_time. -/
structure TimeOfDay where
  hour : Nat
  minute : Nat
  second : Nat
deriving DecidableEq, Repr

/-- The two player operations handed to the scheduler as callbacks. -/
inductive PlayerAction
  | startAction
  | stopAction
deriving DecidableEq, Repr

/-- apscheduler triggers as constructed by the source: CronTrigger with
hour/minute/second in UTC (recurring daily), or DateTrigger with an absolute
UTC run date (timestamps are in seconds). -/
inductive Trigger
  | cron (hour minute second : Nat)
  | date (runDate : Int)
deriving DecidableEq, Repr

/-- Observable operations of StreamScheduler, in program order: a direct call
of the player's start, or the registration of a trigger-driven job. -/
inductive SchedulerEvent
  | callPlayerStart
  | addJob (action : PlayerAction) (trigger : Trigger)
deriving DecidableEq, Repr

def SchedulerEvent.isRegistration : SchedulerEvent → Bool
  | SchedulerEvent.addJob _ _ => true
  | SchedulerEvent.callPlayerStart => false

/-- StreamScheduler._schedule_repeat (lines 93-98): add a job on
CronTrigger(hour=t.hour, minute=t.minute, second=t.second, timezone=UTC). -/
def StreamScheduler.schedule_repeat (action : PlayerAction) (t : TimeOfDay) : SchedulerEvent :=
  SchedulerEvent.addJob action (Trigger.cron t.hour t.minute t.second)

/-- StreamScheduler._schedule_one_off (lines 100-105): add a job on
DateTrigger(run_date=t, timezone=UTC). -/
def StreamScheduler.schedule_one_off (action : PlayerAction) (t : Int) : SchedulerEvent :=
  SchedulerEvent.addJob action (Trigger.date t)

/-- StreamScheduler.repeating_time_schedule (lines 85-87): register the start
callback at start_at and the stop callback at stop_at, both daily cron jobs. -/
def StreamScheduler.repeating_time_schedule (start_at stop_at : TimeOfDay) : List SchedulerEvent :=
  [StreamScheduler.schedule_repeat PlayerAction.startAction start_at,
   StreamScheduler.schedule_repeat PlayerAction.stopAction stop_at]

/-- StreamScheduler.one_off_interval_schedule (lines 89-91): call the player's
start synchronously, then register one one-off stop job at utcnow() + play_for. -/
def StreamScheduler.one_off_interval_schedule (now : Int) (play_for : Int) : List SchedulerEvent :=
  [SchedulerEvent.callPlayerStart,
   StreamScheduler.schedule_one_off PlayerAction.stopAction (now + play_for)]

/-- apscheduler DateTrigger.get_next_fire_time: the trigger fires exactly once
at run_date; once a previous fire time exists it never fires again. -/
def DateTrigger.get_next_fire_time (runDate : Int) (previous : Option Int) : Option Int :=
  match previous with
  | none => some runDate
  | some _ => none

/-- Run of decimal digits, most significant first, accumulated into a Nat;
any non-digit character fails (as Python int does). -/
def parseDigitsAux : List Char → Nat → Option Nat
  | [], acc => some acc
  | c :: cs, acc =>
      if c.isDigit then parseDigitsAux cs (acc * 10 + (c.toNat - 48)) else none

/-- Nonempty run of decimal digits. -/
def parseDigits : List Char → Option Nat
  | [] => none
  | c :: cs => parseDigitsAux (c :: cs) 0

/-- Python int(s) on a sign-and-digits string: an optional leading minus or
plus sign followed by at least one digit.  (Surrounding whitespace and
underscore digit separators, which Python also accepts, are omitted; this
model accepts a subset of what Python int accepts.) -/
def pyInt : List Char → Option Int
  | '-' :: cs => (parseDigits cs).map (fun n => -(n : Int))
  | '+' :: cs => (parseDigits cs).map (fun n => (n : Int))
  | cs => (parseDigits cs).map (fun n => (n : Int))

/-- Python str.split on a single colon separator, over the character list:
splitting the empty string gives one empty field, and every colon in the
input opens a new field. -/
def splitColon : List Char → List (List Char)
  | [] => [[]]
  | c :: cs =>
      if c = ':' then [] :: splitColon cs
      else
        match splitColon cs with
        | r :: rs => (c :: r) :: rs
        | [] => [[c]]

/-- to_timedelta (lines 122-127): split on a colon, parse both fields as
Python ints, and build timedelta(hours, minutes) — that is, 3600*h + 60*m
seconds.  Any failure (wrong field count, non-integer field) is sys.exit with
the invalid-format message, modelled as Except.error. -/
def to_timedelta (t : String) : Except String Int :=
  match splitColon t.data with
  | [hs, ms] =>
      match pyInt hs, pyInt ms with
      | some h, some m => Except.ok (h * 3600 + m * 60)
      | _, _ => Except.error ("Invalid timedelta format <" ++ t ++ ">, expecting hh:mm")
  | _ => Except.error ("Invalid timedelta format <" ++ t ++ ">, expecting hh:mm")

/-- The namespace of argparse results for this program: --start-at and
--stop-at already converted by to_time, --play-for already converted by
to_timedelta (a timedelta in seconds), --jumpstart a flag. -/
structure Args where
  start_at : Option TimeOfDay
  stop_at : Option TimeOfDay
  jumpstart : Bool
  play_for : Option Int
deriving DecidableEq, Repr

/-- Python truthiness of an optional datetime.time: None is falsy and a time
object is always truthy. -/
def truthyTime (o : Option TimeOfDay) : Bool :=
  o.isSome

/-- Python truthiness of an optional timedelta: None is falsy, and a timedelta
equal to zero is also falsy (timedelta defines bool(d) as d != timedelta(0)). -/
def truthyTimedelta (o : Option Int) : Bool :=
  match o with
  | none => false
  | some d => d != 0

/-- The validation checks of parse_arguments (lines 153-158), performed on the
argparse result; each sys.exit with a message is an Except.error.  The first
two checks use Python truthiness of the argument values, the third combines
truthiness of play_for with identity-to-None tests on start_at/stop_at. -/
def parse_arguments_validate (a : Args) : Except String Args :=
  if !(truthyTime a.start_at || truthyTime a.stop_at || truthyTimedelta a.play_for) then
    Except.error "At least one of the argument groups must be provided"
  else if (truthyTime a.start_at || truthyTime a.stop_at) && truthyTimedelta a.play_for then
    Except.error "The time and interval based argument groups are mutually exclusive"
  else if !(truthyTimedelta a.play_for) && (a.start_at.isNone ^^ a.stop_at.isNone) then
    Except.error "Both start and stop times should be provided for this argument group"
  else Except.ok a

/-- The dispatch of _main (lines 168-175) on validated arguments at current
UTC time now: the scheduling and playback operations performed before run().
Both branch guards use Python truthiness. -/
def main_dispatch (now : Int) (a : Args) : List SchedulerEvent :=
  if truthyTime a.start_at then
    StreamScheduler.repeating_time_schedule (a.start_at.getD ⟨0, 0, 0⟩) (a.stop_at.getD ⟨0, 0, 0⟩)
      ++ (if a.jumpstart then [SchedulerEvent.callPlayerStart] else [])
  else if truthyTimedelta a.play_for then
    StreamScheduler.one_off_interval_schedule now (a.play_for.getD 0)
  else []

/-- parse_arguments validation followed by the _main dispatch: a validation
failure terminates the process (Except.error, non-zero exit) before any
trigger is registered or playback operation invoked. -/
def py_main (now : Int) (a : Args) : Except String (List SchedulerEvent) :=
  match parse_arguments_validate a with
  | Except.error e => Except.error e
  | Except.ok v => Except.ok (main_dispatch now v)

/-- Failures the vlc engine can raise during play/stop/get_state. -/
inductive EngineErr
  | streamUnreachable
  | codecFailure
  | other (code : Nat)
deriving DecidableEq, Repr

/-- Observable outcome of one StreamPlayer.start or StreamPlayer.stop call. -/
inductive CallOutcome
  | played
  | stoppedPlayback
  | noop
  | caught (e : EngineErr)
deriving DecidableEq, Repr

/-- The try-block body of StreamPlayer.start (lines 52-55), with the engine's
get_state and play calls allowed to throw. -/
def start_try (getState : Except EngineErr VLCState) (play : Except EngineErr Unit) :
    Except EngineErr CallOutcome :=
  match getState with
  | Except.error e => Except.error e
  | Except.ok s =>
      if s ≠ VLCState.playing then
        match play with
        | Except.error e => Except.error e
        | Except.ok _ => Except.ok CallOutcome.played
      else Except.ok CallOutcome.noop

/-- StreamPlayer.start with its except clause (lines 56-57): any exception
from the body is logged and suppressed, and the call returns normally. -/
def start_catch (getState : Except EngineErr VLCState) (play : Except EngineErr Unit) :
    Except EngineErr CallOutcome :=
  match start_try getState play with
  | Except.ok o => Except.ok o
  | Except.error e => Except.ok (CallOutcome.caught e)

/-- The try-block body of StreamPlayer.stop (lines 60-63), with the engine's
get_state and stop calls allowed to throw. -/
def stop_try (getState : Except EngineErr VLCState) (stopCall : Except EngineErr Unit) :
    Except EngineErr CallOutcome :=
  match getState with
  | Except.error e => Except.error e
  | Except.ok s =>
      if s = VLCState.playing then
        match stopCall with
        | Except.error e => Except.error e
        | Except.ok _ => Except.ok CallOutcome.stoppedPlayback
      else Except.ok CallOutcome.noop

/-- StreamPlayer.stop with its except clause (lines 64-65): any exception from
the body is logged and suppressed, and the call returns normally. -/
def stop_catch (getState : Except EngineErr VLCState) (stopCall : Except EngineErr Unit) :
    Except EngineErr CallOutcome :=
  match stop_try getState stopCall with
  | Except.ok o => Except.ok o
  | Except.error e => Except.ok (CallOutcome.caught e)

/-! Helper lemmas about the player state machine. -/

theorem start_engine_eq (s : PlayerState) : (StreamPlayer.start s).engine = VLCState.playing := by
  by_cases h : s.engine = VLCState.playing <;> simp [StreamPlayer.start, h, enginePlay]

theorem start_fix (s : PlayerState) (h : s.engine = VLCState.playing) :
    StreamPlayer.start s = s := by
  simp [StreamPlayer.start, h]

theorem start_count_le (s : PlayerState) :
    (StreamPlayer.start s).playCount ≤ s.playCount + 1 := by
  by_cases h : s.engine = VLCState.playing <;> simp [StreamPlayer.start, h, enginePlay]

theorem start_iter_engine (s : PlayerState) (n : Nat) (hn : 0 < n) :
    (StreamPlayer.start^[n] s).engine = VLCState.playing := by
  cases n with
  | zero => exact absurd hn (by simp)
  | succ k =>
      rw [Function.iterate_succ_apply']
      exact start_engine_eq _

theorem start_iter_count (s : PlayerState) (n : Nat) :
    (StreamPlayer.start^[n] s).playCount ≤ s.playCount + 1 := by
  induction n with
  | zero => simp
  | succ k ih =>
      rw [Function.iterate_succ_apply']
      rcases Nat.eq_zero_or_pos k with h0 | hpos
      · subst h0
        simpa using start_count_le s
      · rw [start_fix _ (start_iter_engine s k hpos)]
        exact ih

theorem stop_engine_ne (s : PlayerState) : (StreamPlayer.stop s).engine ≠ VLCState.playing := by
  by_cases h : s.engine = VLCState.playing <;> simp [StreamPlayer.stop, h, engineStop]

theorem stop_fix (s : PlayerState) (h : s.engine ≠ VLCState.playing) :
    StreamPlayer.stop s = s := by
  simp [StreamPlayer.stop, h]

theorem stop_count_le (s : PlayerState) :
    (StreamPlayer.stop s).stopCount ≤ s.stopCount + 1 := by
  by_cases h : s.engine = VLCState.playing <;> simp [StreamPlayer.stop, h, engineStop]

theorem stop_iter_engine (s : PlayerState) (n : Nat) (hn : 0 < n) :
    (StreamPlayer.stop^[n] s).engine ≠ VLCState.playing := by
  cases n with
  | zero => exact absurd hn (by simp)
  | succ k =>
      rw [Function.iterate_succ_apply']
      exact stop_engine_ne _

theorem stop_iter_count (s : PlayerState) (n : Nat) :
    (StreamPlayer.stop^[n] s).stopCount ≤ s.stopCount + 1 := by
  induction n with
  | zero => simp
  | succ k ih =>
      rw [Function.iterate_succ_apply']
      rcases Nat.eq_zero_or_pos k with h0 | hpos
      · subst h0
        simpa using stop_count_le s
      · rw [stop_fix _ (stop_iter_engine s k hpos)]
        exact ih

/-- C2: start and stop are idempotent.  For every sequence of n ≥ 1
consecutive Start calls with no intervening Stop, the engine's play operation
is invoked at most once (the play counter grows by at most one) and the final
state is Playing; symmetrically n consecutive Stop calls invoke the engine's
stop operation at most once. -/
theorem start_stop_idempotent (s t : PlayerState) (n : Nat) (hn : 1 ≤ n) :
    (StreamPlayer.start^[n] s).playCount ≤ s.playCount + 1 ∧
    (StreamPlayer.start^[n] s).engine = VLCState.playing ∧
    (StreamPlayer.stop^[n] t).stopCount ≤ t.stopCount + 1 :=
  ⟨start_iter_count s n, start_iter_engine s n hn, stop_iter_count t n⟩

/-- Witness for C2 at n = 3, starting from an idle player and a playing one. -/
theorem start_stop_idempotent_w :
    1 ≤ 3 ∧
    ((StreamPlayer.start^[3] ⟨VLCState.nothingSpecial, 0, 0⟩).playCount ≤
        (⟨VLCState.nothingSpecial, 0, 0⟩ : PlayerState).playCount + 1 ∧
      (StreamPlayer.start^[3] ⟨VLCState.nothingSpecial, 0, 0⟩).engine = VLCState.playing ∧
      (StreamPlayer.stop^[3] ⟨VLCState.playing, 0, 0⟩).stopCount ≤
        (⟨VLCState.playing, 0, 0⟩ : PlayerState).stopCount + 1) :=
  ⟨by decide,
   start_stop_idempotent ⟨VLCState.nothingSpecial, 0, 0⟩ ⟨VLCState.playing, 0, 0⟩ 3 (by decide)⟩

/-- C3: StreamPlayer.loop returns only after the engine's state query reports
Ended — at the return index the queried state is Ended, and at every earlier
poll the state is not Ended (hence never Playing or Idle at return) — and,
given that the engine eventually reports Ended, the loop terminates at a
well-defined poll index. -/
theorem loop_returns_on_ended (q : Nat → VLCState) (h : ∃ n, q n = VLCState.ended) :
    q (loopReturn q h) = VLCState.ended ∧
    ∀ m, m < loopReturn q h → q m ≠ VLCState.ended :=
  ⟨Nat.find_spec h, fun _ hm => Nat.find_min h hm⟩

/-- Witness for C3 on a trace that reports Playing twice, then Ended. -/
theorem loop_returns_on_ended_w :
    (∃ n, pollTrace n = VLCState.ended) ∧
    (pollTrace (loopReturn pollTrace ⟨2, rfl⟩) = VLCState.ended ∧
      ∀ m, m < loopReturn pollTrace ⟨2, rfl⟩ → pollTrace m ≠ VLCState.ended) :=
  ⟨⟨2, rfl⟩, loop_returns_on_ended pollTrace ⟨2, rfl⟩⟩

/-- C4 counterexample: the claim that the wait loop sleeps between state
queries is false — no sleep effect of any length occurs in an iteration of
StreamPlayer.loop. -/
theorem loop_sleep_refuted : ¬ ∃ ms, LoopEffect.sleepMs ms ∈ loopIterationEffects := by
  rintro ⟨ms, hm⟩
  simp [loopIterationEffects] at hm

/-- C4 amended: StreamPlayer.loop busy-spins — each iteration of the wait
loop performs exactly one state query and no sleep at all. -/
theorem loop_tight_poll :
    loopIterationEffects.filter LoopEffect.isSleep = [] ∧
    loopIterationEffects = [LoopEffect.queryState] :=
  ⟨rfl, rfl⟩

/-- C5: for every non-negative duration d, one_off_interval_schedule first
calls the player's start synchronously and then registers exactly one job,
a one-off DateTrigger invoking stop at now + d; the DateTrigger fires once at
now + d and is never re-armed afterwards. -/
theorem one_off_schedule_spec (now d : Int) (_hd : 0 ≤ d) :
    StreamScheduler.one_off_interval_schedule now d =
      [SchedulerEvent.callPlayerStart,
       SchedulerEvent.addJob PlayerAction.stopAction (Trigger.date (now + d))] ∧
    ((StreamScheduler.one_off_interval_schedule now d).filter
        SchedulerEvent.isRegistration).length = 1 ∧
    DateTrigger.get_next_fire_time (now + d) none = some (now + d) ∧
    DateTrigger.get_next_fire_time (now + d) (some (now + d)) = none :=
  ⟨rfl, rfl, rfl, rfl⟩

/-- Witness for C5 at now = 1000 and a 45-minute (2700 s) duration. -/
theorem one_off_schedule_spec_w :
    (0 : Int) ≤ 2700 ∧
    (StreamScheduler.one_off_interval_schedule 1000 2700 =
      [SchedulerEvent.callPlayerStart,
       SchedulerEvent.addJob PlayerAction.stopAction (Trigger.date (1000 + 2700))] ∧
    ((StreamScheduler.one_off_interval_schedule 1000 2700).filter
        SchedulerEvent.isRegistration).length = 1 ∧
    DateTrigger.get_next_fire_time (1000 + 2700) none = some (1000 + 2700) ∧
    DateTrigger.get_next_fire_time (1000 + 2700) (some (1000 + 2700)) = none) :=
  ⟨by decide, one_off_schedule_spec 1000 2700 (by decide)⟩

/-- C6: repeating_time_schedule registers, for every pair of times of day,
exactly two recurring daily UTC cron triggers — start at the start time's
hour/minute/second, stop at the stop time's — with no ordering constraint
between the two times (the equation holds for every pair, including stop
earlier than start, and no rejection path exists). -/
theorem repeating_schedule_spec (st sp : TimeOfDay) :
    StreamScheduler.repeating_time_schedule st sp =
      [SchedulerEvent.addJob PlayerAction.startAction (Trigger.cron st.hour st.minute st.second),
       SchedulerEvent.addJob PlayerAction.stopAction (Trigger.cron sp.hour sp.minute sp.second)] ∧
    (StreamScheduler.repeating_time_schedule st sp).length = 2 :=
  ⟨rfl, rfl⟩

/-- C7 counterexample: to_timedelta accepts "-1:00" and produces the negative
duration -3600 seconds, refuting the claim that every accepted input yields a
non-negative duration. -/
theorem to_timedelta_negative_cex :
    to_timedelta "-1:00" = Except.ok (-3600) ∧ ¬ ((0 : Int) ≤ -3600) :=
  ⟨rfl, by decide⟩

/-- C7 amended: an input accepted by to_timedelta yields exactly
3600*h + 60*m seconds where h and m are the Python-int values of its two
colon-separated fields; this is non-negative whenever both fields are
non-negative, but the fields may be negative, so non-negativity of the result
is not guaranteed in general. -/
theorem to_timedelta_fields_value (t : String) (hs ms : List Char) (h m : Int)
    (hsplit : splitColon t.data = [hs, ms])
    (hh : pyInt hs = some h) (hm : pyInt ms = some m) :
    to_timedelta t = Except.ok (h * 3600 + m * 60) ∧
    (0 ≤ h → 0 ≤ m → 0 ≤ h * 3600 + m * 60) := by
  constructor
  · simp [to_timedelta, hsplit, hh, hm]
  · intro h0 m0
    exact add_nonneg (mul_nonneg h0 (by norm_num)) (mul_nonneg m0 (by norm_num))

/-- Witness for C7's amended statement on the input "1:30". -/
theorem to_timedelta_fields_value_w :
    splitColon "1:30".data = [['1'], ['3', '0']] ∧
    pyInt ['1'] = some 1 ∧
    pyInt ['3', '0'] = some 30 ∧
    (to_timedelta "1:30" = Except.ok (1 * 3600 + 30 * 60) ∧
      (0 ≤ (1 : Int) → 0 ≤ (30 : Int) → 0 ≤ (1 : Int) * 3600 + (30 : Int) * 60)) :=
  ⟨by decide, by decide, by decide,
   to_timedelta_fields_value "1:30" ['1'] ['3', '0'] 1 30 (by decide) (by decide) (by decide)⟩

/-- C8: every engine failure during start or stop is caught at the player
boundary and suppressed: for all engine responses, start and stop return
normally (never an error), and a failure of the state query or of the
play/stop call surfaces only as a logged caught outcome. -/
theorem engine_failures_suppressed (q : Except EngineErr VLCState)
    (p st : Except EngineErr Unit) (e : EngineErr) :
    (start_catch q p).isOk = true ∧
    (stop_catch q st).isOk = true ∧
    start_catch (Except.error e) p = Except.ok (CallOutcome.caught e) ∧
    start_catch (Except.ok VLCState.stopped) (Except.error e) =
      Except.ok (CallOutcome.caught e) ∧
    stop_catch (Except.ok VLCState.playing) (Except.error e) =
      Except.ok (CallOutcome.caught e) := by
  refine ⟨?_, ?_, rfl, rfl, rfl⟩
  · cases hq : start_try q p <;> simp [start_catch, hq, Except.isOk, Except.toBool]
  · cases hq : stop_try q st <;> simp [stop_catch, hq, Except.isOk, Except.toBool]

/-- C10: start invokes the engine's play operation from every queried state
other than Playing — including Ended and Error — transitioning the session
back to Playing. -/
theorem start_from_nonplaying_plays (s : PlayerState) (h : s.engine ≠ VLCState.playing) :
    StreamPlayer.start s = enginePlay s ∧
    (StreamPlayer.start s).playCount = s.playCount + 1 ∧
    (StreamPlayer.start s).engine = VLCState.playing := by
  refine ⟨if_pos h, ?_, ?_⟩ <;> simp [StreamPlayer.start, h, enginePlay]

/-- Witness for C10 from the terminal Ended state. -/
theorem start_from_nonplaying_plays_w :
    (⟨VLCState.ended, 0, 0⟩ : PlayerState).engine ≠ VLCState.playing ∧
    (StreamPlayer.start ⟨VLCState.ended, 0, 0⟩ = enginePlay ⟨VLCState.ended, 0, 0⟩ ∧
      (StreamPlayer.start ⟨VLCState.ended, 0, 0⟩).playCount =
        (⟨VLCState.ended, 0, 0⟩ : PlayerState).playCount + 1 ∧
      (StreamPlayer.start ⟨VLCState.ended, 0, 0⟩).engine = VLCState.playing) :=
  ⟨by decide, start_from_nonplaying_plays ⟨VLCState.ended, 0, 0⟩ (by decide)⟩

/-- C1 counterexample: a zero one-shot duration is not accepted — with only
--play-for 0:00 supplied, the zero timedelta is falsy, parse_arguments treats
the group as absent and the process exits with the no-argument-group message,
so one_off_interval_schedule is never invoked. -/
theorem zero_duration_rejected :
    py_main 0 ⟨none, none, false, some 0⟩ =
      Except.error "At least one of the argument groups must be provided" := rfl

/-- C1 amended: a zero one-shot duration is rejected by argument validation
(the process exits non-zero and one_off_interval_schedule is not invoked),
while every nonzero duration d is accepted and results in
one_off_interval_schedule: start is called and a one-off stop trigger is
registered at now + d. -/
theorem one_shot_nonzero_dispatch (now d : Int) (hd : d ≠ 0) :
    py_main now ⟨none, none, false, some d⟩ =
      Except.ok [SchedulerEvent.callPlayerStart,
                 SchedulerEvent.addJob PlayerAction.stopAction (Trigger.date (now + d))] := by
  simp [py_main, parse_arguments_validate, truthyTime, truthyTimedelta, main_dispatch,
        StreamScheduler.one_off_interval_schedule, StreamScheduler.schedule_one_off,
        bne_iff_ne, hd]

/-- Witness for C1's amended statement with a 45-minute duration. -/
theorem one_shot_nonzero_dispatch_w :
    (2700 : Int) ≠ 0 ∧
    py_main 1000 ⟨none, none, false, some 2700⟩ =
      Except.ok [SchedulerEvent.callPlayerStart,
                 SchedulerEvent.addJob PlayerAction.stopAction (Trigger.date (1000 + 2700))] :=
  ⟨by decide, one_shot_nonzero_dispatch 1000 2700 (by decide)⟩

/-- C9 counterexample: with both argument groups supplied — start 07:30, stop
19:30 and a zero --play-for — validation does not exit: the zero timedelta is
falsy, so the program proceeds and registers the two daily triggers. -/
theorem both_groups_zero_duration_cex :
    py_main 0 ⟨some ⟨7, 30, 0⟩, some ⟨19, 30, 0⟩, false, some 0⟩ =
      Except.ok [SchedulerEvent.addJob PlayerAction.startAction (Trigger.cron 7 30 0),
                 SchedulerEvent.addJob PlayerAction.stopAction (Trigger.cron 19 30 0)] := rfl

/-- C9 amended: the process exits with an error before any trigger is
registered or playback invoked when no argument is supplied, when both groups
are supplied with a nonzero one-shot duration (a zero duration is falsy and
counts as absent), or when exactly one of start/stop is supplied. -/
theorem invalid_args_exit (now : Int) (a : Args)
    (h : (a.start_at = none ∧ a.stop_at = none ∧ a.play_for = none) ∨
         ((a.start_at.isSome = true ∨ a.stop_at.isSome = true) ∧
           ∃ d, a.play_for = some d ∧ d ≠ 0) ∨
         (a.start_at.isSome ≠ a.stop_at.isSome)) :
    (py_main now a).isOk = false := by
  obtain ⟨sa, so, j, pf⟩ := a
  rcases sa with _ | stt <;> rcases so with _ | spt <;> rcases pf with _ | d <;>
    simp_all [py_main, parse_arguments_validate, truthyTime, truthyTimedelta,
      Except.isOk, Except.toBool, bne_iff_ne] <;>
    by_cases hd : d = 0 <;>
    simp_all [Except.toBool]

/-- Witness for C9's amended statement: no argument group supplied. -/
theorem invalid_args_exit_w :
    ((⟨none, none, false, none⟩ : Args).start_at = none ∧
      (⟨none, none, false, none⟩ : Args).stop_at = none ∧
      (⟨none, none, false, none⟩ : Args).play_for = none) ∧
    (py_main 0 ⟨none, none, false, none⟩).isOk = false :=
  ⟨⟨rfl, rfl, rfl⟩, invalid_args_exit 0 ⟨none, none, false, none⟩ (Or.inl ⟨rfl, rfl, rfl⟩)⟩

end Autoplay
